import Mathlib

/-!
Shallow embedding of the ESP-IDF double-reset detector
(`src/drd_handler.cpp`, class `drd_handler::DoubleResetDetector`).

The detector state (`Detector`), the RTC slow-memory cell (`s_rtc_magic`)
and the NVS namespace are bundled into one system state `Sys`.  The NVS
store is modelled with a live view (`data`, what `nvs_get_*` reads and
`nvs_set_*`/`nvs_erase_key` mutate) and a durable view (`durable`,
updated by `nvs_commit`).

External inputs of one boot — the reset reason, the compile-time
tooling-suppression option, the app ELF SHA-256, the arm-delay
configuration — and the success/failure of each fallible ESP-IDF call
site are collected in environment records (`CEnv`, `ConfEnv`, `ClrEnv`);
a `true` fault field makes the corresponding call site return a failing
`esp_err_t` (any code other than `ESP_OK` / `ESP_ERR_NVS_NOT_FOUND`) and
leave the store untouched.
-/

/-- Result codes distinguished by the detector's control flow:
`ESP_OK`, `ESP_ERR_NVS_NOT_FOUND`, and any other failing code. -/
inductive EspErr
  | ok
  | notFound
  | other
deriving DecidableEq, Repr

/-- Reset reasons of `esp_reset_reason_t` that the module names. -/
inductive ResetReason
  | poweron
  | ext
  | sw
  | panic
  | intWdt
  | taskWdt
  | wdt
  | deepsleep
  | brownout
  | sdio
  | usb
  | jtag
  | unknown
deriving DecidableEq, Repr

/-- Storage backend (`drd_handler::Backend`). -/
inductive Backend
  | RTC
  | NVS
deriving DecidableEq, Repr

/-- The magic sentinel `kDrdMagic = 0xD0B1E5E5`. -/
def kDrdMagic : Nat := 0xD0B1E5E5

/-- `is_tooling_reset`: with `CONFIG_DRD_SUPPRESS_TOOLING_RESETS` enabled
it recognises `ESP_RST_SW`, `ESP_RST_USB` and `ESP_RST_JTAG`; with the
option disabled it is constant false. -/
def is_tooling_reset (suppress : Bool) (r : ResetReason) : Bool :=
  suppress && (r == ResetReason.sw || r == ResetReason.usb || r == ResetReason.jtag)

/-- Typed contents of the DRD-owned keys of the NVS namespace.
`none` means the key is absent. -/
structure NvsData where
  magic : Option Nat
  last_boot_us : Option Nat
  app_hash : Option Nat
  app_sha256 : Option (List Nat)
  fw_dirty : Option Nat
  first_boot : Option Nat
deriving DecidableEq, Repr

/-- NVS namespace with live handle view and committed (durable) view. -/
structure NvsStore where
  data : NvsData
  durable : NvsData
deriving DecidableEq, Repr

/-- Instance fields of `DoubleResetDetector`. -/
structure Detector where
  backend : Backend
  configured : Bool
  nvs_ready : Bool
  evaluated : Bool
  cached_result : Bool
  firmware_id_dirty : Bool
  /-- Whether the delayed-arm one-shot timer is live. -/
  arm_timer : Bool
  arm_window_s : Nat
  /-- The live disarm timer, carrying the window (seconds) it was started with. -/
  disarm_timer : Option Nat
deriving DecidableEq, Repr

/-- Whole system state: detector instance, RTC cell `s_rtc_magic`, NVS store. -/
structure Sys where
  det : Detector
  rtc : Nat
  store : NvsStore
deriving DecidableEq, Repr

/-- Environment of `configure()`: result of `nvs_flash_init` (logged only)
and of `nvs_open` on the configured namespace. -/
structure ConfEnv where
  nvsInitErr : EspErr
  nvsOpenErr : EspErr
deriving DecidableEq, Repr

/-- Environment of one boot evaluation: external inputs and one fault
flag per fallible call site of `check_and_clear`, `schedule_arm`,
`schedule_disarm` and `arm_timer_cb`. -/
structure CEnv where
  /-- `esp_reset_reason()` for this boot. -/
  reason : ResetReason
  /-- Compile-time `CONFIG_DRD_SUPPRESS_TOOLING_RESETS`. -/
  suppressTooling : Bool
  /-- App ELF SHA-256 from `esp_app_get_description`; `none` models
  `get_current_app_sha256` failing. -/
  appSha : Option (List Nat)
  /-- Compile-time `CONFIG_DRD_ARM_DELAY_SECONDS`. -/
  armDelay : Nat
  fGetSha : Bool
  fGetLegacy : Bool
  fEraseMagicId : Bool
  fSetSha : Bool
  fEraseLegacy : Bool
  fSetDirty1 : Bool
  fSetFirstBoot1 : Bool
  fCommitId : Bool
  fGetDirty : Bool
  fGetMagic : Bool
  fEraseMagicDet : Bool
  fCommitDet : Bool
  fEraseMagicTool : Bool
  fCommitTool : Bool
  fSetMagicNormal : Bool
  fCommitNormal : Bool
  /-- Failure of `esp_timer_create`/`esp_timer_start_once` for the disarm timer. -/
  fTimerDisarm : Bool
  /-- Failure of `esp_timer_create`/`esp_timer_start_once` for the arm timer. -/
  fTimerArm : Bool
  cbSetDirty : Bool
  cbSetMagic : Bool
  cbCommit : Bool
deriving DecidableEq, Repr

/-- Environment of `clear_flag`: one fault flag per `nvs_erase_key`
call (in source order: magic, last_boot_us, fw_dirty, first_boot,
app_sha256, app_hash) and one for the final `nvs_commit`. -/
structure ClrEnv where
  fMagic : Bool
  fBoot : Bool
  fDirty : Bool
  fFirstBoot : Bool
  fSha : Bool
  fHash : Bool
  fCommit : Bool
deriving DecidableEq, Repr

/-- `schedule_disarm(window_s)`: cancel any prior disarm timer, then
create and start a one-shot timer for `window_s` seconds; on timer
creation/start failure no disarm timer is left. -/
def schedule_disarm (s : Sys) (ce : CEnv) (w : Nat) : Sys :=
  let s := { s with det.disarm_timer := none }
  if ce.fTimerDisarm then s else { s with det.disarm_timer := some w }

/-- `arm_timer_cb`: clear the live arm-timer handle; bail out unless the
NVS backend is ready; then `fw_dirty := 0`, `magic := kDrdMagic`,
commit, and schedule the disarm timer for `arm_window_s_`, aborting at
the first failing step. -/
def arm_timer_cb (s : Sys) (ce : CEnv) : Sys :=
  let s := { s with det.arm_timer := false }
  if s.det.backend ≠ Backend.NVS ∨ s.det.nvs_ready = false then s
  else if ce.cbSetDirty then s
  else
    let s := { s with store.data.fw_dirty := some 0 }
    if ce.cbSetMagic then s
    else
      let s := { s with store.data.magic := some kDrdMagic }
      if ce.cbCommit then s
      else
        let s := { s with store.durable := s.store.data }
        schedule_disarm s ce s.det.arm_window_s

/-- `schedule_arm(window_s)`: cancel any prior arm timer, record the
window, and either run `arm_timer_cb` synchronously (arm delay zero) or
start the one-shot arm timer. -/
def schedule_arm (s : Sys) (ce : CEnv) (w : Nat) : Sys :=
  let s := { s with det.arm_timer := false, det.arm_window_s := w }
  if ce.armDelay = 0 then arm_timer_cb s ce
  else if ce.fTimerArm then s
  else { s with det.arm_timer := true }

/-- `configure()`: idempotent; on the NVS backend it runs
`safe_nvs_init` (result only logged) and `nvs_open`; an open failure
leaves `nvs_ready_ = false` and returns the failing code; otherwise it
returns `ESP_OK`. -/
def configure (s : Sys) (cf : ConfEnv) : EspErr × Sys :=
  if s.det.configured then (EspErr.ok, s)
  else
    if s.det.backend = Backend.NVS then
      if cf.nvsOpenErr ≠ EspErr.ok then
        (cf.nvsOpenErr,
         { s with det.nvs_ready := false, det.configured := true })
      else
        (EspErr.ok,
         { s with det.nvs_ready := true, det.configured := true })
    else (EspErr.ok, { s with det.configured := true })

/-- The lazy-configuration step at the top of `check_and_clear`: if not
yet configured, call `configure`; if that fails while the backend is
NVS, fall back to the RTC backend. -/
def lazy_configure (s : Sys) (cf : ConfEnv) : Sys :=
  if s.det.configured then s
  else
    let r := configure s cf
    if r.1 ≠ EspErr.ok ∧ r.2.det.backend = Backend.NVS then
      { r.2 with det.backend := Backend.RTC }
    else r.2

/-- The firmware-identity-changed block of `check_and_clear`
(lines 430-496): erase the marker, store the current fingerprint,
erase the legacy key when present, set `fw_dirty` and `first_boot`,
commit, and remember the dirty identity in RAM. -/
def identity_update (s : Sys) (ce : CEnv) (current : List Nat)
    (legacyPresent : Bool) : Sys :=
  let s := if ce.fEraseMagicId then s else { s with store.data.magic := none }
  let s := if ce.fSetSha then s else { s with store.data.app_sha256 := some current }
  let s :=
    if legacyPresent then
      if ce.fEraseLegacy then s else { s with store.data.app_hash := none }
    else s
  let s := if ce.fSetDirty1 then s else { s with store.data.fw_dirty := some 1 }
  let s := if ce.fSetFirstBoot1 then s else { s with store.data.first_boot := some 1 }
  let s := if ce.fCommitId then s else { s with store.durable := s.store.data }
  { s with det.firmware_id_dirty := true }

/-- The `firmware_changed` predicate of lines 376-405: the stored
fingerprint is absent, unreadable or of wrong length, or differs from
the current one. -/
def fw_changed (s : Sys) (ce : CEnv) (current : List Nat) : Bool :=
  let storedShaValid : Bool :=
    !ce.fGetSha &&
      (match s.store.data.app_sha256 with
       | some b => b.length == 32
       | none => false)
  let storedSha : List Nat := (s.store.data.app_sha256).getD []
  !storedShaValid || storedSha != current

/-- The firmware-identity tracking prefix of the NVS evaluation
(lines 324-496): mark the identity dirty when the current fingerprint
is unobtainable, then run the identity-changed block when needed. -/
def nvs_stage (s : Sys) (ce : CEnv) : Sys :=
  let current : List Nat := ce.appSha.getD (List.replicate 32 0)
  let s := if ce.appSha.isNone then { s with det.firmware_id_dirty := true } else s
  let legacyPresent : Bool := !ce.fGetLegacy && (s.store.data.app_hash).isSome
  if fw_changed s ce current then identity_update s ce current legacyPresent else s

/-- The Dirty-Flag read of lines 498-516: a read error means dirty;
an absent key defaults to `firmware_changed || firmware_id_dirty_`. -/
def nvs_dirty (s : Sys) (ce : CEnv) (changed : Bool) : Bool :=
  if ce.fGetDirty then true
  else
    match s.store.data.fw_dirty with
    | some v => v != 0
    | none => changed || s.det.firmware_id_dirty

/-- The four decision branches of lines 523-628: detection, dirty,
tooling reset, and normal arming. -/
def nvs_branches (s : Sys) (ce : CEnv) (w : Nat) (tooling dirty : Bool) :
    Bool × Sys :=
  let storedMagic : Nat := if ce.fGetMagic then 0 else (s.store.data.magic).getD 0
  if !tooling && !dirty && storedMagic == kDrdMagic then
    let s := { s with det.disarm_timer := none }
    let s := if ce.fEraseMagicDet then s else { s with store.data.magic := none }
    let s := if ce.fCommitDet then s else { s with store.durable := s.store.data }
    (true, s)
  else if dirty then
    (false, schedule_arm s ce w)
  else if tooling then
    let s := if ce.fEraseMagicTool then s else { s with store.data.magic := none }
    let s := if ce.fCommitTool then s else { s with store.durable := s.store.data }
    (false, schedule_arm s ce w)
  else
    if ce.fSetMagicNormal then (false, s)
    else
      let s := { s with store.data.magic := some kDrdMagic }
      if ce.fCommitNormal then (false, s)
      else (false, schedule_disarm { s with store.durable := s.store.data } ce w)

/-- The NVS-backend portion of `check_and_clear` (lines 322-628):
firmware-identity tracking, dirty/marker reads, then the
detection / dirty / tooling / normal branches. -/
def nvs_evaluate (s : Sys) (ce : CEnv) (w : Nat) (tooling : Bool) : Bool × Sys :=
  let changed := fw_changed s ce (ce.appSha.getD (List.replicate 32 0))
  let s := nvs_stage s ce
  nvs_branches s ce w tooling (nvs_dirty s ce changed)

/-- The boot decision of `check_and_clear` after the memoisation guard:
lazy configure with RTC fallback, then the RTC algorithm or the NVS
evaluation. -/
def eval_boot (s : Sys) (ce : CEnv) (cf : ConfEnv) (w : Nat) : Bool × Sys :=
  let tooling := is_tooling_reset ce.suppressTooling ce.reason
  let s := lazy_configure s cf
  if s.det.backend = Backend.RTC then
    if tooling then (false, { s with rtc := 0 })
    else if s.rtc = kDrdMagic then (true, { s with rtc := 0 })
    else (false, schedule_disarm { s with rtc := kDrdMagic } ce w)
  else if s.det.nvs_ready = false then (false, s)
  else nvs_evaluate s ce w tooling

/-- `check_and_clear(window_s)`: return the cached result if this boot
was already evaluated; otherwise set `evaluated_` (before the decision
runs), compute the decision, cache it and return it. -/
def check_and_clear (s : Sys) (ce : CEnv) (cf : ConfEnv) (w : Nat) : Bool × Sys :=
  if s.det.evaluated then (s.det.cached_result, s)
  else
    let s := { s with det.evaluated := true, det.cached_result := false }
    let r := eval_boot s ce cf w
    (r.1, { r.2 with det.cached_result := r.1 })

/-- `clear_flag()`: zero the RTC cell on the RTC backend; on the NVS
backend (when ready) erase the six DRD-owned keys in source order and
commit. -/
def clear_flag (s : Sys) (e : ClrEnv) : Sys :=
  if s.det.backend = Backend.RTC then { s with rtc := 0 }
  else if s.det.nvs_ready = false then s
  else
    let s := if e.fMagic then s else { s with store.data.magic := none }
    let s := if e.fBoot then s else { s with store.data.last_boot_us := none }
    let s := if e.fDirty then s else { s with store.data.fw_dirty := none }
    let s := if e.fFirstBoot then s else { s with store.data.first_boot := none }
    let s := if e.fSha then s else { s with store.data.app_sha256 := none }
    let s := if e.fHash then s else { s with store.data.app_hash := none }
    if e.fCommit then s else { s with store.durable := s.store.data }

/-! Concrete base values used by witnesses and counterexamples. -/

/-- A concrete 32-byte app fingerprint. -/
def sha0 : List Nat := List.replicate 32 7

/-- A second, different 32-byte fingerprint. -/
def sha1 : List Nat := List.replicate 32 9

/-- Empty NVS namespace contents. -/
def emptyData : NvsData := ⟨none, none, none, none, none, none⟩

/-- A fault-free boot environment: external-pin reset, tooling
suppression enabled, fingerprint `sha0` available, arm delay 2 s. -/
def benignCe : CEnv :=
  { reason := ResetReason.ext
    suppressTooling := true
    appSha := some sha0
    armDelay := 2
    fGetSha := false
    fGetLegacy := false
    fEraseMagicId := false
    fSetSha := false
    fEraseLegacy := false
    fSetDirty1 := false
    fSetFirstBoot1 := false
    fCommitId := false
    fGetDirty := false
    fGetMagic := false
    fEraseMagicDet := false
    fCommitDet := false
    fEraseMagicTool := false
    fCommitTool := false
    fSetMagicNormal := false
    fCommitNormal := false
    fTimerDisarm := false
    fTimerArm := false
    cbSetDirty := false
    cbSetMagic := false
    cbCommit := false }

/-- A configure environment where NVS init and open both succeed. -/
def benignConf : ConfEnv := ⟨EspErr.ok, EspErr.ok⟩

/-- A fault-free `clear_flag` environment. -/
def benignClr : ClrEnv := ⟨false, false, false, false, false, false, false⟩

/-! Preservation lemmas: no operation of the detector ever touches the
per-boot `evaluated_` flag. -/

lemma schedule_disarm_evaluated (s : Sys) (ce : CEnv) (w : Nat) :
    (schedule_disarm s ce w).det.evaluated = s.det.evaluated := by
  simp only [schedule_disarm]
  split_ifs <;> rfl

lemma arm_timer_cb_evaluated (s : Sys) (ce : CEnv) :
    (arm_timer_cb s ce).det.evaluated = s.det.evaluated := by
  simp only [arm_timer_cb, schedule_disarm]
  split_ifs <;> rfl

lemma schedule_arm_evaluated (s : Sys) (ce : CEnv) (w : Nat) :
    (schedule_arm s ce w).det.evaluated = s.det.evaluated := by
  simp only [schedule_arm, arm_timer_cb, schedule_disarm]
  split_ifs <;> rfl

set_option maxHeartbeats 1000000 in
lemma identity_update_evaluated (s : Sys) (ce : CEnv) (current : List Nat)
    (lp : Bool) :
    (identity_update s ce current lp).det.evaluated = s.det.evaluated := by
  simp only [identity_update]
  split_ifs <;> rfl

lemma nvs_stage_evaluated (s : Sys) (ce : CEnv) :
    (nvs_stage s ce).det.evaluated = s.det.evaluated := by
  simp only [nvs_stage]
  split_ifs <;> simp [identity_update_evaluated]

lemma nvs_branches_evaluated (s : Sys) (ce : CEnv) (w : Nat) (t d : Bool) :
    ((nvs_branches s ce w t d).2).det.evaluated = s.det.evaluated := by
  simp only [nvs_branches]
  split_ifs <;>
    simp [schedule_arm_evaluated, schedule_disarm_evaluated]

lemma nvs_evaluate_evaluated (s : Sys) (ce : CEnv) (w : Nat) (t : Bool) :
    ((nvs_evaluate s ce w t).2).det.evaluated = s.det.evaluated := by
  simp only [nvs_evaluate]
  rw [nvs_branches_evaluated, nvs_stage_evaluated]

lemma lazy_configure_evaluated (s : Sys) (cf : ConfEnv) :
    (lazy_configure s cf).det.evaluated = s.det.evaluated := by
  simp only [lazy_configure, configure]
  split_ifs <;> rfl

lemma eval_boot_evaluated (s : Sys) (ce : CEnv) (cf : ConfEnv) (w : Nat) :
    ((eval_boot s ce cf w).2).det.evaluated = s.det.evaluated := by
  simp only [eval_boot]
  rw [← lazy_configure_evaluated s cf]
  generalize lazy_configure s cf = t
  split_ifs <;>
    simp [nvs_evaluate_evaluated, schedule_disarm_evaluated]

/-! Helper lemmas about the staged evaluation. -/

lemma lazy_configure_of_configured (s : Sys) (cf : ConfEnv)
    (hc : s.det.configured = true) : lazy_configure s cf = s := by
  simp [lazy_configure, hc]

lemma identity_update_fw_dirty (s : Sys) (ce : CEnv) (current : List Nat)
    (lp : Bool) :
    (identity_update s ce current lp).store.data.fw_dirty =
      if ce.fSetDirty1 then s.store.data.fw_dirty else some 1 := by
  simp only [identity_update, apply_ite Sys.store, apply_ite NvsStore.data,
    apply_ite NvsData.fw_dirty]
  simp [ite_self]

lemma nvs_stage_fw_dirty (s : Sys) (ce : CEnv) :
    (nvs_stage s ce).store.data.fw_dirty = s.store.data.fw_dirty ∨
    (nvs_stage s ce).store.data.fw_dirty = some 1 := by
  simp only [nvs_stage]
  split_ifs <;>
    first
      | exact Or.inl rfl
      | (rw [identity_update_fw_dirty]; split_ifs <;> simp)

lemma nvs_dirty_of_nonzero (s : Sys) (ce : CEnv) (changed : Bool) (u : Nat)
    (h : s.store.data.fw_dirty = some u) (hu : u ≠ 0) :
    nvs_dirty s ce changed = true := by
  unfold nvs_dirty
  split_ifs with hf
  · rfl
  · rw [h]
    simpa using hu

lemma nvs_branches_dirty_false (s : Sys) (ce : CEnv) (w : Nat) (t : Bool) :
    (nvs_branches s ce w t true).1 = false := by
  simp [nvs_branches]

/-- C10: with the NVS backend selected but the namespace never opened
(`configure` already ran and `nvs_ready_` is false), the first
`check_and_clear` of a boot returns `false` and only sets the per-boot
memoisation fields: the NVS store, the RTC cell and both timers are
untouched. -/
theorem nvs_not_ready_first_call_noop (s : Sys) (ce : CEnv) (cf : ConfEnv)
    (w : Nat)
    (hb : s.det.backend = Backend.NVS) (hc : s.det.configured = true)
    (hr : s.det.nvs_ready = false) (he : s.det.evaluated = false) :
    check_and_clear s ce cf w =
      (false, { s with det.evaluated := true, det.cached_result := false }) := by
  simp [check_and_clear, eval_boot, lazy_configure, hb, hc, hr, he]

/-- Concrete witness for `nvs_not_ready_first_call_noop`. -/
def c10sys : Sys :=
  ⟨⟨Backend.NVS, true, false, false, false, false, false, 0, none⟩, 0,
   ⟨emptyData, emptyData⟩⟩

theorem nvs_not_ready_first_call_noop_witness :
    c10sys.det.backend = Backend.NVS ∧ c10sys.det.configured = true ∧
    c10sys.det.nvs_ready = false ∧ c10sys.det.evaluated = false ∧
    check_and_clear c10sys benignCe benignConf 10 =
      (false, { c10sys with det.evaluated := true, det.cached_result := false }) :=
  ⟨rfl, rfl, rfl, rfl,
   nvs_not_ready_first_call_noop c10sys benignCe benignConf 10 rfl rfl rfl rfl⟩

/-- The state after the memoisation guard marks the boot as evaluated. -/
def mark_eval (s : Sys) : Sys :=
  { s with det.evaluated := true, det.cached_result := false }

lemma check_and_clear_first (s : Sys) (ce : CEnv) (cf : ConfEnv) (w : Nat)
    (he : s.det.evaluated = false) :
    check_and_clear s ce cf w =
      ((eval_boot (mark_eval s) ce cf w).1,
       { (eval_boot (mark_eval s) ce cf w).2 with
           det.cached_result := (eval_boot (mark_eval s) ce cf w).1 }) := by
  simp [check_and_clear, mark_eval, he]

lemma eval_boot_nvs_dirty_false (s : Sys) (ce : CEnv) (cf : ConfEnv)
    (w v : Nat)
    (hb : s.det.backend = Backend.NVS) (hc : s.det.configured = true)
    (hr : s.det.nvs_ready = true)
    (hd : s.store.data.fw_dirty = some v) (hv : v ≠ 0) :
    (eval_boot s ce cf w).1 = false := by
  simp only [eval_boot]
  rw [lazy_configure_of_configured s cf hc]
  simp only [hb, hr, nvs_evaluate]
  rcases nvs_stage_fw_dirty s ce with hst | hst
  · rw [nvs_dirty_of_nonzero _ _ _ v (hst.trans hd) hv]
    simp [nvs_branches_dirty_false]
  · rw [nvs_dirty_of_nonzero _ _ _ 1 hst one_ne_zero]
    simp [nvs_branches_dirty_false]

/-- C3: on the NVS backend, a boot entered with a nonzero persisted
`fw_dirty` key makes `check_and_clear` return `false`, whatever the
stored marker, the reset reason or any injected I/O fault. -/
theorem nvs_dirty_entry_returns_false (s : Sys) (ce : CEnv) (cf : ConfEnv)
    (w v : Nat)
    (hb : s.det.backend = Backend.NVS) (hc : s.det.configured = true)
    (hr : s.det.nvs_ready = true) (he : s.det.evaluated = false)
    (hd : s.store.data.fw_dirty = some v) (hv : v ≠ 0) :
    (check_and_clear s ce cf w).1 = false := by
  rw [check_and_clear_first s ce cf w he]
  exact eval_boot_nvs_dirty_false (mark_eval s) ce cf w v hb hc hr hd hv

/-- Concrete state for the C3 witness: NVS ready, dirty flag 1, marker
armed; detection is still refused. -/
def c3sys : Sys :=
  ⟨⟨Backend.NVS, true, true, false, false, false, false, 0, none⟩, 0,
   ⟨⟨some kDrdMagic, none, none, some sha0, some 1, none⟩, emptyData⟩⟩

theorem nvs_dirty_entry_returns_false_witness :
    c3sys.store.data.fw_dirty = some 1 ∧
    c3sys.store.data.magic = some kDrdMagic ∧
    (check_and_clear c3sys benignCe benignConf 10).1 = false :=
  ⟨rfl, rfl,
   nvs_dirty_entry_returns_false c3sys benignCe benignConf 10 1
     rfl rfl rfl rfl rfl one_ne_zero⟩

/-- C4: the first `check_and_clear` of a boot marks it evaluated and
caches its boolean; any later call — with any window or environment —
returns the same boolean and leaves the whole system state untouched,
and any call on an already-evaluated state (including a reentrant one,
since `evaluated_` is set before the decision runs) returns the cached
value without re-running the decision. -/
theorem check_and_clear_memoised (s : Sys) (ce ce2 : CEnv) (cf cf2 : ConfEnv)
    (w w2 : Nat) (he : s.det.evaluated = false) :
    ((check_and_clear s ce cf w).2).det.evaluated = true ∧
    check_and_clear (check_and_clear s ce cf w).2 ce2 cf2 w2 =
      ((check_and_clear s ce cf w).1, (check_and_clear s ce cf w).2) ∧
    (∀ t : Sys, t.det.evaluated = true →
      check_and_clear t ce2 cf2 w2 = (t.det.cached_result, t)) := by
  have hcached : ∀ t : Sys, t.det.evaluated = true →
      check_and_clear t ce2 cf2 w2 = (t.det.cached_result, t) := by
    intro t ht
    simp [check_and_clear, ht]
  have hev : ((check_and_clear s ce cf w).2).det.evaluated = true := by
    rw [check_and_clear_first s ce cf w he]
    simp [eval_boot_evaluated, mark_eval]
  have hcr : ((check_and_clear s ce cf w).2).det.cached_result =
      (check_and_clear s ce cf w).1 := by
    rw [check_and_clear_first s ce cf w he]
  refine ⟨hev, ?_, hcached⟩
  rw [hcached _ hev, hcr]

/-- Concrete state for the C4 witness: a fresh RTC-backend boot. -/
def c4sys : Sys :=
  ⟨⟨Backend.RTC, true, false, false, false, false, false, 0, none⟩, 0,
   ⟨emptyData, emptyData⟩⟩

theorem check_and_clear_memoised_witness :
    c4sys.det.evaluated = false ∧
    ((check_and_clear c4sys benignCe benignConf 5).2).det.evaluated = true ∧
    check_and_clear (check_and_clear c4sys benignCe benignConf 5).2
        benignCe benignConf 7 =
      ((check_and_clear c4sys benignCe benignConf 5).1,
       (check_and_clear c4sys benignCe benignConf 5).2) :=
  ⟨rfl,
   (check_and_clear_memoised c4sys benignCe benignCe benignConf benignConf
     5 7 rfl).1,
   (check_and_clear_memoised c4sys benignCe benignCe benignConf benignConf
     5 7 rfl).2.1⟩

/-- A never-configured NVS-backend detector on a fresh system. -/
def nvsFreshSys : Sys :=
  ⟨⟨Backend.NVS, false, false, false, false, false, false, 0, none⟩, 0,
   ⟨emptyData, emptyData⟩⟩

/-- C6 counterexample: with the NVS backend selected and `nvs_open`
failing, `configure` returns the failing code — not a success status. -/
theorem configure_open_fail_counterexample :
    (configure nvsFreshSys ⟨EspErr.ok, EspErr.other⟩).1 = EspErr.other ∧
    (configure nvsFreshSys ⟨EspErr.ok, EspErr.other⟩).1 ≠ EspErr.ok := by
  decide

/-- C6 amended: on an unconfigured NVS-backend detector, `configure`
returns exactly the status of the namespace open — the underlying error
code when the open fails (so the host does see the failure), and
success otherwise, even when `nvs_flash_init` failed. -/
theorem configure_returns_open_status (s : Sys) (cf : ConfEnv)
    (hb : s.det.backend = Backend.NVS) (hc : s.det.configured = false) :
    (configure s cf).1 = cf.nvsOpenErr := by
  simp [configure, hb, hc]
  split_ifs with h
  · exact h.symm
  · rfl

theorem configure_returns_open_status_witness :
    nvsFreshSys.det.backend = Backend.NVS ∧
    nvsFreshSys.det.configured = false ∧
    (configure nvsFreshSys ⟨EspErr.other, EspErr.notFound⟩).1 =
      EspErr.notFound :=
  ⟨rfl, rfl,
   configure_returns_open_status nvsFreshSys ⟨EspErr.other, EspErr.notFound⟩
     rfl rfl⟩

lemma eval_boot_rtc (s : Sys) (ce : CEnv) (cf : ConfEnv) (w : Nat)
    (hb : s.det.backend = Backend.RTC) (hc : s.det.configured = true) :
    eval_boot s ce cf w =
      (if is_tooling_reset ce.suppressTooling ce.reason then
        (false, { s with rtc := 0 })
      else if s.rtc = kDrdMagic then (true, { s with rtc := 0 })
      else (false, schedule_disarm { s with rtc := kDrdMagic } ce w)) := by
  simp only [eval_boot]
  rw [lazy_configure_of_configured s cf hc]
  simp [hb]

/-- C2: the first `check_and_clear` of a boot on the RTC backend follows
the three-step algorithm: a tooling reset zeroes the RTC cell and yields
`false`; otherwise an armed RTC cell (`kDrdMagic`) is cleared and yields
`true`; otherwise the cell is set to `kDrdMagic`, a disarm timer is
scheduled for the given window, and the call yields `false`. -/
theorem rtc_first_call_algorithm (s : Sys) (ce : CEnv) (cf : ConfEnv)
    (w : Nat)
    (hb : s.det.backend = Backend.RTC) (hc : s.det.configured = true)
    (he : s.det.evaluated = false) (ht : ce.fTimerDisarm = false) :
    (is_tooling_reset ce.suppressTooling ce.reason = true →
      (check_and_clear s ce cf w).1 = false ∧
      (check_and_clear s ce cf w).2.rtc = 0) ∧
    (is_tooling_reset ce.suppressTooling ce.reason = false →
      s.rtc = kDrdMagic →
      (check_and_clear s ce cf w).1 = true ∧
      (check_and_clear s ce cf w).2.rtc = 0) ∧
    (is_tooling_reset ce.suppressTooling ce.reason = false →
      s.rtc ≠ kDrdMagic →
      (check_and_clear s ce cf w).1 = false ∧
      (check_and_clear s ce cf w).2.rtc = kDrdMagic ∧
      (check_and_clear s ce cf w).2.det.disarm_timer = some w) := by
  rw [check_and_clear_first s ce cf w he]
  rw [eval_boot_rtc (mark_eval s) ce cf w hb hc]
  refine ⟨?_, ?_, ?_⟩
  · intro h1
    simp [h1]
  · intro h1 h2
    have h2m : (mark_eval s).rtc = kDrdMagic := h2
    simp [h1, h2m]
  · intro h1 h2
    have h2m : ¬ (mark_eval s).rtc = kDrdMagic := h2
    simp [h1, h2m, schedule_disarm, ht]

/-- Concrete state for the C2 witness: armed RTC cell, external-pin
reset (detection case). -/
def c2sys : Sys :=
  ⟨⟨Backend.RTC, true, false, false, false, false, false, 0, none⟩,
   kDrdMagic, ⟨emptyData, emptyData⟩⟩

theorem rtc_first_call_algorithm_witness :
    c2sys.det.backend = Backend.RTC ∧ c2sys.det.evaluated = false ∧
    is_tooling_reset benignCe.suppressTooling benignCe.reason = false ∧
    c2sys.rtc = kDrdMagic ∧
    (check_and_clear c2sys benignCe benignConf 9).1 = true ∧
    (check_and_clear c2sys benignCe benignConf 9).2.rtc = 0 := by
  refine ⟨rfl, rfl, rfl, rfl, ?_⟩
  exact (rtc_first_call_algorithm c2sys benignCe benignConf 9
    rfl rfl rfl rfl).2.1 rfl rfl

/-- The detector state after a failed lazy configuration on the NVS
backend: configured, store not ready, backend fallen back to RTC. -/
def degraded (s : Sys) : Sys :=
  { s with det.backend := Backend.RTC, det.configured := true,
           det.nvs_ready := false }

lemma lazy_configure_nvs_fail (s : Sys) (cf : ConfEnv)
    (hb : s.det.backend = Backend.NVS) (hc : s.det.configured = false)
    (ho : cf.nvsOpenErr ≠ EspErr.ok) :
    lazy_configure s cf = degraded s := by
  simp [lazy_configure, configure, degraded, hb, hc, ho]

/-- C5 counterexample: `configure` is called explicitly on an NVS-backend
detector and its `nvs_open` fails; the armed RTC cell and a non-tooling
reset would make the volatile algorithm return `true`, but the following
`check_and_clear` keeps the NVS backend and returns `false` — the
detector did not degrade to the volatile decision algorithm. -/
def c5base : Sys :=
  ⟨⟨Backend.NVS, false, false, false, false, false, false, 0, none⟩,
   kDrdMagic, ⟨emptyData, emptyData⟩⟩

theorem nvs_explicit_open_fail_counterexample :
    (configure c5base ⟨EspErr.ok, EspErr.other⟩).1 ≠ EspErr.ok ∧
    (configure c5base ⟨EspErr.ok, EspErr.other⟩).2.rtc = kDrdMagic ∧
    is_tooling_reset benignCe.suppressTooling benignCe.reason = false ∧
    (check_and_clear (configure c5base ⟨EspErr.ok, EspErr.other⟩).2
        benignCe benignConf 10).1 = false ∧
    (check_and_clear (configure c5base ⟨EspErr.ok, EspErr.other⟩).2
        benignCe benignConf 10).2.det.backend = Backend.NVS ∧
    (check_and_clear (configure c5base ⟨EspErr.ok, EspErr.other⟩).2
        benignCe benignConf 10).2.rtc = kDrdMagic := by
  decide

/-- C5 amended: the degrade happens only on the lazy path — when the
detector is still unconfigured, so the first `check_and_clear` itself
runs `configure`; if the open then fails, the backend switches to RTC
for the rest of the process lifetime and that same call already follows
the volatile decision algorithm.  (When `configure` was called
explicitly and failed, `check_and_clear` instead keeps the NVS backend
and returns `false` without running the volatile algorithm.) -/
theorem nvs_lazy_open_fail_degrades (s : Sys) (ce : CEnv) (cf : ConfEnv)
    (w : Nat)
    (hb : s.det.backend = Backend.NVS) (hc : s.det.configured = false)
    (he : s.det.evaluated = false) (ho : cf.nvsOpenErr ≠ EspErr.ok)
    (ht : ce.fTimerDisarm = false) :
    (check_and_clear s ce cf w).2.det.backend = Backend.RTC ∧
    (is_tooling_reset ce.suppressTooling ce.reason = true →
      (check_and_clear s ce cf w).1 = false ∧
      (check_and_clear s ce cf w).2.rtc = 0) ∧
    (is_tooling_reset ce.suppressTooling ce.reason = false →
      s.rtc = kDrdMagic →
      (check_and_clear s ce cf w).1 = true ∧
      (check_and_clear s ce cf w).2.rtc = 0) ∧
    (is_tooling_reset ce.suppressTooling ce.reason = false →
      s.rtc ≠ kDrdMagic →
      (check_and_clear s ce cf w).1 = false ∧
      (check_and_clear s ce cf w).2.rtc = kDrdMagic ∧
      (check_and_clear s ce cf w).2.det.disarm_timer = some w) := by
  rw [check_and_clear_first s ce cf w he]
  simp only [eval_boot]
  rw [lazy_configure_nvs_fail (mark_eval s) cf hb hc ho]
  have hbd : (degraded (mark_eval s)).det.backend = Backend.RTC := rfl
  refine ⟨?_, ?_, ?_, ?_⟩
  · by_cases h1 : is_tooling_reset ce.suppressTooling ce.reason = true
    · simp [h1, hbd]
    · by_cases h2 : s.rtc = kDrdMagic
      · have h2m : (mark_eval s).rtc = kDrdMagic := h2
        simp [h1, h2m, hbd, degraded]
      · have h2m : ¬ (mark_eval s).rtc = kDrdMagic := h2
        simp [h1, h2m, hbd, schedule_disarm, ht, degraded]
  · intro h1
    simp [h1, hbd, degraded]
  · intro h1 h2
    have h2m : (mark_eval s).rtc = kDrdMagic := h2
    simp [h1, h2m, hbd, degraded]
  · intro h1 h2
    have h2m : ¬ (mark_eval s).rtc = kDrdMagic := h2
    simp [h1, h2m, hbd, schedule_disarm, ht, degraded]

theorem nvs_lazy_open_fail_degrades_witness :
    c5base.det.backend = Backend.NVS ∧ c5base.det.configured = false ∧
    c5base.rtc = kDrdMagic ∧
    (check_and_clear c5base benignCe ⟨EspErr.ok, EspErr.other⟩ 10).2.det.backend
      = Backend.RTC ∧
    (check_and_clear c5base benignCe ⟨EspErr.ok, EspErr.other⟩ 10).1 = true ∧
    (check_and_clear c5base benignCe ⟨EspErr.ok, EspErr.other⟩ 10).2.rtc = 0 := by
  refine ⟨rfl, rfl, rfl, ?_, ?_⟩
  · exact (nvs_lazy_open_fail_degrades c5base benignCe ⟨EspErr.ok, EspErr.other⟩
      10 rfl rfl rfl (by decide) rfl).1
  · exact (nvs_lazy_open_fail_degrades c5base benignCe ⟨EspErr.ok, EspErr.other⟩
      10 rfl rfl rfl (by decide) rfl).2.2.1 rfl rfl

/-- C9: on a ready NVS backend, a fault-free `clear_flag` leaves every
DRD-owned key — magic, last_boot_us, fw_dirty, first_boot, app_sha256
and the legacy app_hash — absent from the namespace, and commits the
erasures (the durable view equals the live view). -/
theorem clear_flag_erases_all_keys (s : Sys) (e : ClrEnv)
    (hb : s.det.backend = Backend.NVS) (hr : s.det.nvs_ready = true)
    (h1 : e.fMagic = false) (h2 : e.fBoot = false) (h3 : e.fDirty = false)
    (h4 : e.fFirstBoot = false) (h5 : e.fSha = false) (h6 : e.fHash = false)
    (h7 : e.fCommit = false) :
    (clear_flag s e).store.data.magic = none ∧
    (clear_flag s e).store.data.last_boot_us = none ∧
    (clear_flag s e).store.data.fw_dirty = none ∧
    (clear_flag s e).store.data.first_boot = none ∧
    (clear_flag s e).store.data.app_sha256 = none ∧
    (clear_flag s e).store.data.app_hash = none ∧
    (clear_flag s e).store.durable = (clear_flag s e).store.data := by
  simp [clear_flag, hb, hr, h1, h2, h3, h4, h5, h6, h7]

/-- Concrete state for the C9 witness: every DRD key populated and
committed before `clear_flag`. -/
def c9sys : Sys :=
  ⟨⟨Backend.NVS, true, true, true, false, false, false, 0, none⟩, 0,
   ⟨⟨some kDrdMagic, some 5, some 77, some sha0, some 1, some 1⟩,
    ⟨some kDrdMagic, some 5, some 77, some sha0, some 1, some 1⟩⟩⟩

theorem clear_flag_erases_all_keys_witness :
    c9sys.det.backend = Backend.NVS ∧ c9sys.det.nvs_ready = true ∧
    c9sys.store.data.magic = some kDrdMagic ∧
    ((clear_flag c9sys benignClr).store.data.magic = none ∧
     (clear_flag c9sys benignClr).store.data.last_boot_us = none ∧
     (clear_flag c9sys benignClr).store.data.fw_dirty = none ∧
     (clear_flag c9sys benignClr).store.data.first_boot = none ∧
     (clear_flag c9sys benignClr).store.data.app_sha256 = none ∧
     (clear_flag c9sys benignClr).store.data.app_hash = none ∧
     (clear_flag c9sys benignClr).store.durable =
       (clear_flag c9sys benignClr).store.data) :=
  ⟨rfl, rfl, rfl,
   clear_flag_erases_all_keys c9sys benignClr rfl rfl rfl rfl rfl rfl rfl
     rfl rfl⟩

/-- C8: the arm-timer callback on a ready NVS backend performs
clear-dirty, write-marker, commit, schedule-disarm in that order, and a
failure at any step skips every later step: a failing dirty-write leaves
the store untouched; a failing marker-write leaves only the staged
dirty-write; a failing commit leaves the durable view untouched; and
only the fully successful path schedules the disarm timer for the stored
arm window. -/
theorem arm_timer_cb_order (s : Sys) (ce : CEnv)
    (hb : s.det.backend = Backend.NVS) (hr : s.det.nvs_ready = true) :
    (ce.cbSetDirty = true →
      arm_timer_cb s ce = { s with det.arm_timer := false }) ∧
    (ce.cbSetDirty = false → ce.cbSetMagic = true →
      arm_timer_cb s ce =
        { s with det.arm_timer := false,
                 store.data.fw_dirty := some 0 }) ∧
    (ce.cbSetDirty = false → ce.cbSetMagic = false → ce.cbCommit = true →
      arm_timer_cb s ce =
        { s with det.arm_timer := false,
                 store.data.fw_dirty := some 0,
                 store.data.magic := some kDrdMagic }) ∧
    (ce.cbSetDirty = false → ce.cbSetMagic = false → ce.cbCommit = false →
      ce.fTimerDisarm = false →
      arm_timer_cb s ce =
        { s with det.arm_timer := false,
                 det.disarm_timer := some s.det.arm_window_s,
                 store.data.fw_dirty := some 0,
                 store.data.magic := some kDrdMagic,
                 store.durable :=
                   { s.store.data with fw_dirty := some 0,
                                       magic := some kDrdMagic } }) := by
  refine ⟨?_, ?_, ?_, ?_⟩
  · intro hd
    simp [arm_timer_cb, hb, hr, hd]
  · intro hd hm
    simp [arm_timer_cb, hb, hr, hd, hm]
  · intro hd hm hcm
    simp [arm_timer_cb, hb, hr, hd, hm, hcm]
  · intro hd hm hcm htd
    simp [arm_timer_cb, schedule_disarm, hb, hr, hd, hm, hcm, htd]

/-- Concrete state for the C8 witness: ready NVS backend, dirty flag 1,
stored arm window of 4 s, stale disarm timer for 3 s. -/
def c8sys : Sys :=
  ⟨⟨Backend.NVS, true, true, true, true, true, true, 4, some 3⟩, 0,
   ⟨⟨none, none, none, some sha0, some 1, some 1⟩, emptyData⟩⟩

theorem arm_timer_cb_order_witness :
    c8sys.det.backend = Backend.NVS ∧ c8sys.det.nvs_ready = true ∧
    arm_timer_cb c8sys benignCe =
      { c8sys with det.arm_timer := false,
                   det.disarm_timer := some c8sys.det.arm_window_s,
                   store.data.fw_dirty := some 0,
                   store.data.magic := some kDrdMagic,
                   store.durable :=
                     { c8sys.store.data with fw_dirty := some 0,
                                             magic := some kDrdMagic } } :=
  ⟨rfl, rfl,
   (arm_timer_cb_order c8sys benignCe rfl rfl).2.2.2 rfl rfl rfl rfl⟩

lemma eval_boot_nvs (s : Sys) (ce : CEnv) (cf : ConfEnv) (w : Nat)
    (hb : s.det.backend = Backend.NVS) (hc : s.det.configured = true)
    (hr : s.det.nvs_ready = true) :
    eval_boot s ce cf w =
      nvs_evaluate s ce w (is_tooling_reset ce.suppressTooling ce.reason) := by
  simp only [eval_boot]
  rw [lazy_configure_of_configured s cf hc]
  simp [hb, hr]

lemma fw_changed_false (s : Sys) (ce : CEnv) (cur : List Nat)
    (hfs : ce.fGetSha = false)
    (hstored : s.store.data.app_sha256 = some cur)
    (hlen : cur.length = 32) :
    fw_changed s ce cur = false := by
  simp [fw_changed, hfs, hstored, hlen]

lemma nvs_stage_id (s : Sys) (ce : CEnv) (cur : List Nat)
    (hsha : ce.appSha = some cur) (hfs : ce.fGetSha = false)
    (hstored : s.store.data.app_sha256 = some cur)
    (hlen : cur.length = 32) :
    nvs_stage s ce = s := by
  simp [nvs_stage, hsha, fw_changed_false s ce cur hfs hstored hlen]

lemma nvs_dirty_zero (s : Sys) (ce : CEnv) (c : Bool)
    (hfd : ce.fGetDirty = false)
    (hdv : s.store.data.fw_dirty = some 0) :
    nvs_dirty s ce c = false := by
  simp [nvs_dirty, hfd, hdv]

lemma nvs_branches_normal (s : Sys) (ce : CEnv) (w : Nat)
    (hm : s.store.data.magic = none) :
    nvs_branches s ce w false false =
      (if ce.fSetMagicNormal then (false, s)
       else if ce.fCommitNormal then
         (false, { s with store.data.magic := some kDrdMagic })
       else
         (false,
          schedule_disarm
            { s with store.data.magic := some kDrdMagic,
                     store.durable :=
                       { s.store.data with magic := some kDrdMagic } }
            ce w)) := by
  simp [nvs_branches, hm, kDrdMagic]

lemma nvs_evaluate_normal (s : Sys) (ce : CEnv) (w : Nat) (cur : List Nat)
    (hsha : ce.appSha = some cur) (hfs : ce.fGetSha = false)
    (hstored : s.store.data.app_sha256 = some cur) (hlen : cur.length = 32)
    (hfd : ce.fGetDirty = false) (hdv : s.store.data.fw_dirty = some 0)
    (hm : s.store.data.magic = none) :
    nvs_evaluate s ce w false =
      (if ce.fSetMagicNormal then (false, s)
       else if ce.fCommitNormal then
         (false, { s with store.data.magic := some kDrdMagic })
       else
         (false,
          schedule_disarm
            { s with store.data.magic := some kDrdMagic,
                     store.durable :=
                       { s.store.data with magic := some kDrdMagic } }
            ce w)) := by
  simp only [nvs_evaluate]
  rw [nvs_stage_id s ce cur hsha hfs hstored hlen]
  rw [nvs_dirty_zero s ce _ hfd hdv]
  exact nvs_branches_normal s ce w hm

/-- C7: with the NVS backend in the normal (arming) branch — clean
matching firmware, dirty flag zero, no stored marker, non-tooling
reset — a failing marker write or a failing commit never changes the
returned boolean (still `false`) and leaves both the disarm timer and
the durable store untouched; the disarm timer is scheduled (for the
given window, with the marker committed) only when the marker write and
the commit both succeed. -/
theorem nvs_normal_branch_faults (s : Sys) (ce : CEnv) (cf : ConfEnv)
    (w : Nat) (cur : List Nat)
    (hb : s.det.backend = Backend.NVS) (hc : s.det.configured = true)
    (hr : s.det.nvs_ready = true) (he : s.det.evaluated = false)
    (htool : is_tooling_reset ce.suppressTooling ce.reason = false)
    (hsha : ce.appSha = some cur) (hfs : ce.fGetSha = false)
    (hstored : s.store.data.app_sha256 = some cur) (hlen : cur.length = 32)
    (hfd : ce.fGetDirty = false) (hdv : s.store.data.fw_dirty = some 0)
    (hm : s.store.data.magic = none) :
    (check_and_clear s ce cf w).1 = false ∧
    (ce.fSetMagicNormal = true ∨ ce.fCommitNormal = true →
      (check_and_clear s ce cf w).2.det.disarm_timer = s.det.disarm_timer ∧
      (check_and_clear s ce cf w).2.store.durable = s.store.durable) ∧
    (ce.fSetMagicNormal = false → ce.fCommitNormal = false →
      ce.fTimerDisarm = false →
      (check_and_clear s ce cf w).2.det.disarm_timer = some w ∧
      (check_and_clear s ce cf w).2.store.durable.magic = some kDrdMagic) := by
  rw [check_and_clear_first s ce cf w he]
  rw [eval_boot_nvs (mark_eval s) ce cf w hb hc hr, htool]
  rw [nvs_evaluate_normal (mark_eval s) ce w cur hsha hfs hstored hlen
    hfd hdv hm]
  refine ⟨?_, ?_, ?_⟩
  · split_ifs <;> simp [schedule_disarm]
  · rintro (h | h)
    · simp [h, mark_eval]
    · by_cases hs : ce.fSetMagicNormal = true
      · simp [hs, mark_eval]
      · simp [hs, h, mark_eval]
  · intro hs hcm htd
    simp [hs, hcm, htd, schedule_disarm]

/-- Concrete state for the C7 witness: normal branch with a failing
commit; the prior disarm timer (6 s) and the durable store survive. -/
def c7sys : Sys :=
  ⟨⟨Backend.NVS, true, true, false, false, false, false, 0, some 6⟩, 0,
   ⟨⟨none, none, none, some sha0, some 0, none⟩,
    ⟨none, none, none, some sha0, some 0, none⟩⟩⟩

/-- Boot environment whose only fault is the arming commit. -/
def c7ce : CEnv := { benignCe with fCommitNormal := true }

theorem nvs_normal_branch_faults_witness :
    c7sys.store.data.magic = none ∧ c7sys.store.data.fw_dirty = some 0 ∧
    c7ce.fCommitNormal = true ∧
    (check_and_clear c7sys c7ce benignConf 10).1 = false ∧
    (check_and_clear c7sys c7ce benignConf 10).2.det.disarm_timer =
      c7sys.det.disarm_timer ∧
    (check_and_clear c7sys c7ce benignConf 10).2.store.durable =
      c7sys.store.durable := by
  refine ⟨rfl, rfl, rfl, ?_, ?_⟩
  · exact (nvs_normal_branch_faults c7sys c7ce benignConf 10 sha0
      rfl rfl rfl rfl rfl rfl rfl rfl (by decide) rfl rfl rfl).1
  · exact (nvs_normal_branch_faults c7sys c7ce benignConf 10 sha0
      rfl rfl rfl rfl rfl rfl rfl rfl (by decide) rfl rfl rfl).2.1
      (Or.inr rfl)

lemma identity_update_backend (s : Sys) (ce : CEnv) (current : List Nat)
    (lp : Bool) :
    (identity_update s ce current lp).det.backend = s.det.backend := by
  simp only [identity_update, apply_ite Sys.det, apply_ite Detector.backend]
  simp [ite_self]

lemma nvs_stage_backend (s : Sys) (ce : CEnv) :
    (nvs_stage s ce).det.backend = s.det.backend := by
  simp only [nvs_stage]
  split_ifs <;> (try rw [identity_update_backend]) <;> rfl

lemma nvs_branches_true_state (s : Sys) (ce : CEnv) (w : Nat) (tl d : Bool)
    (h1 : ce.fEraseMagicDet = false) (h2 : ce.fCommitDet = false)
    (hres : (nvs_branches s ce w tl d).1 = true) :
    (nvs_branches s ce w tl d).2 =
      { s with det.disarm_timer := none, store.data.magic := none,
               store.durable := { s.store.data with magic := none } } := by
  have h := hres
  simp only [nvs_branches, h1, h2, Bool.false_eq_true, if_false] at h ⊢
  split_ifs at h ⊢ with hdet hd ht hsn hcn <;> simp_all

lemma eval_boot_true_cases (s : Sys) (ce : CEnv) (cf : ConfEnv) (w : Nat)
    (h1 : ce.fEraseMagicDet = false) (h2 : ce.fCommitDet = false)
    (hres : (eval_boot s ce cf w).1 = true) :
    ((eval_boot s ce cf w).2.det.backend = Backend.RTC ∧
     (eval_boot s ce cf w).2.rtc = 0) ∨
    ((eval_boot s ce cf w).2.det.backend = Backend.NVS ∧
     (eval_boot s ce cf w).2.store.data.magic = none ∧
     (eval_boot s ce cf w).2.store.durable.magic = none ∧
     (eval_boot s ce cf w).2.det.disarm_timer = none) := by
  have h := hres
  simp only [eval_boot] at h ⊢
  generalize lazy_configure s cf = t at h ⊢
  by_cases hbt : t.det.backend = Backend.RTC
  · simp only [hbt, if_pos] at h ⊢
    split_ifs at h ⊢
    exact Or.inl ⟨hbt, rfl⟩
  · have hbn : t.det.backend = Backend.NVS := by
      cases hq : t.det.backend
      · exact absurd hq hbt
      · rfl
    by_cases hnr : t.det.nvs_ready = false
    · simp [hbn, hnr] at h
    · simp [hbn, hnr, nvs_evaluate] at h ⊢
      rw [nvs_branches_true_state _ _ _ _ _ h1 h2 h]
      right
      refine ⟨?_, rfl, rfl, rfl⟩
      show (nvs_stage t ce).det.backend = Backend.NVS
      rw [nvs_stage_backend]
      exact hbn

/-- C1: whenever the evaluating call of a boot returns `true` (the
detection-branch erase and commit not being faulted), the armed marker
is absent from persistent storage on return: on the RTC path the RTC
cell is zero; on the NVS path the disarm timer is cancelled and the
magic key is erased in both the live and the committed view. -/
theorem detection_true_marker_absent (s : Sys) (ce : CEnv) (cf : ConfEnv)
    (w : Nat)
    (he : s.det.evaluated = false)
    (h1 : ce.fEraseMagicDet = false) (h2 : ce.fCommitDet = false)
    (hres : (check_and_clear s ce cf w).1 = true) :
    ((check_and_clear s ce cf w).2.det.backend = Backend.RTC ∧
     (check_and_clear s ce cf w).2.rtc = 0) ∨
    ((check_and_clear s ce cf w).2.det.backend = Backend.NVS ∧
     (check_and_clear s ce cf w).2.store.data.magic = none ∧
     (check_and_clear s ce cf w).2.store.durable.magic = none ∧
     (check_and_clear s ce cf w).2.det.disarm_timer = none) := by
  rw [check_and_clear_first s ce cf w he] at hres ⊢
  have hq : (eval_boot (mark_eval s) ce cf w).1 = true := hres
  rcases eval_boot_true_cases (mark_eval s) ce cf w h1 h2 hq with
    ⟨ha, hb'⟩ | ⟨ha, hb', hc', hd'⟩
  · exact Or.inl ⟨ha, hb'⟩
  · exact Or.inr ⟨ha, hb', hc', hd'⟩

/-- Concrete state for the C1 witness: NVS detection — matching
fingerprint, clean dirty flag, armed marker, stale disarm timer. -/
def c1sys : Sys :=
  ⟨⟨Backend.NVS, true, true, false, false, false, false, 0, some 8⟩, 0,
   ⟨⟨some kDrdMagic, none, none, some sha0, some 0, none⟩,
    ⟨some kDrdMagic, none, none, some sha0, some 0, none⟩⟩⟩

theorem detection_true_marker_absent_witness :
    c1sys.det.evaluated = false ∧
    (check_and_clear c1sys benignCe benignConf 10).1 = true ∧
    (((check_and_clear c1sys benignCe benignConf 10).2.det.backend =
        Backend.RTC ∧
      (check_and_clear c1sys benignCe benignConf 10).2.rtc = 0) ∨
     ((check_and_clear c1sys benignCe benignConf 10).2.det.backend =
        Backend.NVS ∧
      (check_and_clear c1sys benignCe benignConf 10).2.store.data.magic =
        none ∧
      (check_and_clear c1sys benignCe benignConf 10).2.store.durable.magic =
        none ∧
      (check_and_clear c1sys benignCe benignConf 10).2.det.disarm_timer =
        none)) :=
  ⟨rfl, by decide,
   detection_true_marker_absent c1sys benignCe benignConf 10 rfl rfl rfl
     (by decide)⟩
